import Mathlib

/-!
Shallow embedding of the `insurance` contract
(`src/contracts/insurance/src/lib.rs`) of the quest-contract repository.

Modelling conventions:
* Ledger addresses (`Address`) are modelled as `Nat`.
* `u64` quantities (timestamps, periods, counters, claim ids) are `Nat`;
  the code never subtracts u64 values without the subtrahend being known
  smaller (the one place it could underflow, `cancel_policy`, is modelled
  as a failing call, matching the checked-arithmetic panic).
* `i128` monetary quantities are `Int`.  Rust `i128` division truncates
  toward zero, so divisions are embedded with `Int.tdiv`.
* The persistent key-value storage maps (`Policy(addr)`, `Claim(id)`,
  `UserClaims(addr)`, `FraudFlags(addr)`) are association lists with a
  shadowing `set`; lookups only ever see the most recent binding, which
  matches the overwrite semantics of the host storage.
* Every public entry point becomes a function `State -> args -> Option State`
  (`none` = the transaction panicked/aborted with no committed effect, which
  is the host platform's all-or-nothing semantics).  The ledger timestamp
  `env.ledger().timestamp()` becomes an explicit `now : Nat` argument.
* `require_auth` is the external capability proof: a call that reaches the
  contract is assumed to carry a valid proof for the claimed principal, so
  it is not a failure source in the model; the `assert_admin` comparison
  against the stored admin is modelled explicitly.
* The external fungible-token service is modelled at its boundary by the
  contract's balance in the payment token (`contract_balance`): an outbound
  `transfer` from the contract fails (aborting the whole call) when the
  amount is negative or exceeds that balance, exactly the atomic-failure
  contract of the token interface; inbound transfers from a user are
  assumed funded (user solvency is outside the contract's state) and fail
  only for negative amounts.
-/

/-- Coverage types, `CoverageType` in the source. -/
inductive CoverageType where
  | NFT
  | Token
  | Combined
deriving DecidableEq, Repr

/-- Policy status, `PolicyStatus` in the source. -/
inductive PolicyStatus where
  | Active
  | Expired
  | Cancelled
deriving DecidableEq, Repr

/-- Claim status, `ClaimStatus` in the source. -/
inductive ClaimStatus where
  | Submitted
  | UnderReview
  | Approved
  | Rejected
  | Paid
deriving DecidableEq, Repr

/-- Asset types, `AssetType` in the source. -/
inductive AssetType where
  | NFT
  | Token
deriving DecidableEq, Repr

/-- `InsuranceConfig` struct of the source. -/
structure InsuranceConfig where
  admin : Nat
  payment_token : Nat
  base_premium_rate : Nat
  nft_multiplier : Nat
  token_multiplier : Nat
  combined_multiplier : Nat
  min_coverage_period : Nat
  max_coverage_period : Nat
  max_coverage_amount : Int
  claim_review_period : Nat
  max_claims_per_period : Nat
  claim_cooldown : Nat
  paused : Bool
deriving DecidableEq, Repr

/-- `InsurancePolicy` struct of the source. -/
structure InsurancePolicy where
  owner : Nat
  coverage_type : CoverageType
  coverage_amount : Int
  premium_paid : Int
  start_time : Nat
  end_time : Nat
  status : PolicyStatus
  asset_address : Nat
deriving DecidableEq, Repr

/-- `Claim` struct of the source. -/
structure Claim where
  claim_id : Nat
  policy_owner : Nat
  asset_type : AssetType
  asset_address : Nat
  claim_amount : Int
  description : String
  submission_time : Nat
  status : ClaimStatus
  review_notes : String
  payout_amount : Int
  payout_time : Nat
deriving DecidableEq, Repr

/-- `FraudMetrics` struct of the source. -/
structure FraudMetrics where
  total_claims : Nat
  recent_claims : List Nat
  last_claim_time : Nat
  flagged : Bool
  flag_reason : String
deriving DecidableEq, Repr

/-- Keyed lookup in an association-list store (most recent binding wins). -/
def lookupKV {α : Type} : Nat → List (Nat × α) → Option α
  | _, [] => none
  | k, (k', v) :: rest => if k = k' then some v else lookupKV k rest

/-- Keyed overwrite in an association-list store. -/
def setKV {α : Type} (k : Nat) (v : α) (l : List (Nat × α)) : List (Nat × α) :=
  (k, v) :: l

/-- The full persistent state of one initialized contract instance, plus the
contract's balance in the payment token (the boundary model of the external
token service). -/
structure ContractState where
  config : InsuranceConfig
  policies : List (Nat × InsurancePolicy)
  policy_list : List Nat
  claims : List (Nat × Claim)
  claim_counter : Nat
  user_claims : List (Nat × List Nat)
  premium_pool : Int
  total_policies : Nat
  total_claims : Nat
  fraud_flags : List (Nat × FraudMetrics)
  contract_balance : Int
deriving DecidableEq, Repr

/-- `SECONDS_PER_DAY` constant of the source. -/
def SECONDS_PER_DAY : Nat := 86400

/-- `BASIS_POINTS` constant of the source. -/
def BASIS_POINTS : Nat := 10000

/-- `FRAUD_LOOKBACK_PERIOD` constant of the source (30 days). -/
def FRAUD_LOOKBACK_PERIOD : Nat := 30 * SECONDS_PER_DAY

/-- The `FraudMetrics` default the source builds with `unwrap_or` when a user
has no stored record. -/
def defaultFraudMetrics : FraudMetrics :=
  { total_claims := 0
    recent_claims := []
    last_claim_time := 0
    flagged := false
    flag_reason := "" }

/-- Boundary model of `token_client.transfer(user, contract, amount)`:
credits the contract balance; the user side is assumed funded. -/
def transferToContract (s : ContractState) (amount : Int) : Option ContractState :=
  if 0 ≤ amount then
    some { s with contract_balance := s.contract_balance + amount }
  else none

/-- Boundary model of `token_client.transfer(contract, user, amount)`: fails
atomically when the contract does not hold `amount`. -/
def transferFromContract (s : ContractState) (amount : Int) : Option ContractState :=
  if 0 ≤ amount ∧ amount ≤ s.contract_balance then
    some { s with contract_balance := s.contract_balance - amount }
  else none

/-- `calculate_premium_internal` of the source, verbatim: multiplier by
coverage type, `coverage_days = period / 86400` (u64 floor division),
`annual_rate = base_rate * multiplier / 100` and the final division both in
i128 (truncating) division, with a floor of 1. -/
def calculate_premium_internal (config : InsuranceConfig)
    (coverage_type : CoverageType) (coverage_amount : Int)
    (coverage_period : Nat) : Int :=
  let multiplier : Nat :=
    match coverage_type with
    | CoverageType.NFT => config.nft_multiplier
    | CoverageType.Token => config.token_multiplier
    | CoverageType.Combined => config.combined_multiplier
  let coverage_days : Nat := coverage_period / SECONDS_PER_DAY
  let annual_rate : Int :=
    Int.tdiv ((config.base_premium_rate : Int) * (multiplier : Int)) 100
  let premium : Int :=
    Int.tdiv (coverage_amount * annual_rate * (coverage_days : Int))
      (365 * (BASIS_POINTS : Int))
  if premium < 1 then 1 else premium

/-- The `initialize` entry point of the source: the fresh contract state it seeds (the
"already initialized" re-entry guard is outside this state type, which only
models initialized instances). -/
def initContract (admin payment_token base_premium_rate : Nat) : ContractState :=
  { config :=
      { admin := admin
        payment_token := payment_token
        base_premium_rate := base_premium_rate
        nft_multiplier := 150
        token_multiplier := 100
        combined_multiplier := 180
        min_coverage_period := 7 * SECONDS_PER_DAY
        max_coverage_period := 365 * SECONDS_PER_DAY
        max_coverage_amount := 1000000000000
        claim_review_period := 7 * SECONDS_PER_DAY
        max_claims_per_period := 3
        claim_cooldown := 7 * SECONDS_PER_DAY
        paused := false }
    policies := []
    policy_list := []
    claims := []
    claim_counter := 0
    user_claims := []
    premium_pool := 0
    total_policies := 0
    total_claims := 0
    fraud_flags := []
    contract_balance := 0 }

/-- `add_to_policy_list` of the source. -/
def add_to_policy_list (s : ContractState) (user : Nat) : ContractState :=
  if user ∈ s.policy_list then s
  else { s with policy_list := s.policy_list ++ [user] }

/-- `purchase_policy` of the source. -/
def purchase_policy (s : ContractState) (owner : Nat)
    (coverage_type : CoverageType) (coverage_amount : Int)
    (coverage_period : Nat) (asset_address : Nat) (now : Nat) :
    Option ContractState :=
  if s.config.paused then none
  else if coverage_amount ≤ 0 ∨ s.config.max_coverage_amount < coverage_amount then none
  else if coverage_period < s.config.min_coverage_period ∨
      s.config.max_coverage_period < coverage_period then none
  else if (lookupKV owner s.policies).any
      (fun p => decide (p.status = PolicyStatus.Active)) then none
  else
    let premium := calculate_premium_internal s.config coverage_type
      coverage_amount coverage_period
    (transferToContract s premium).map fun s1 =>
      let policy : InsurancePolicy :=
        { owner := owner
          coverage_type := coverage_type
          coverage_amount := coverage_amount
          premium_paid := premium
          start_time := now
          end_time := now + coverage_period
          status := PolicyStatus.Active
          asset_address := asset_address }
      let s2 := { s1 with policies := setKV owner policy s1.policies }
      let s3 := add_to_policy_list s2 owner
      let s4 := { s3 with premium_pool := s3.premium_pool + premium }
      { s4 with total_policies := s4.total_policies + 1 }

/-- `renew_policy` of the source. -/
def renew_policy (s : ContractState) (owner : Nat) (additional_period : Nat)
    (now : Nat) : Option ContractState :=
  if s.config.paused then none
  else
    match lookupKV owner s.policies with
    | none => none
    | some policy =>
      if policy.status ≠ PolicyStatus.Active ∧ policy.status ≠ PolicyStatus.Expired
      then none
      else
        let new_end_time :=
          if now < policy.end_time then policy.end_time + additional_period
          else now + additional_period
        let total_period := new_end_time - policy.start_time
        if s.config.max_coverage_period < total_period then none
        else
          let additional_premium := calculate_premium_internal s.config
            policy.coverage_type policy.coverage_amount additional_period
          (transferToContract s additional_premium).map fun s1 =>
            let policy' :=
              { policy with
                  end_time := new_end_time
                  premium_paid := policy.premium_paid + additional_premium
                  status := PolicyStatus.Active }
            let s2 := { s1 with policies := setKV owner policy' s1.policies }
            { s2 with premium_pool := s2.premium_pool + additional_premium }

/-- `cancel_policy` of the source.  The unused `_elapsed_period` subtraction
`current_time - policy.start_time` panics (u64 underflow) when
`now < start_time`, and the i128 refund division panics when the policy's
total span is zero; both panics are modelled as `none`. -/
def cancel_policy (s : ContractState) (owner : Nat) (now : Nat) :
    Option ContractState :=
  match lookupKV owner s.policies with
  | none => none
  | some policy =>
    if policy.status ≠ PolicyStatus.Active then none
    else if now < policy.start_time then none
    else
      let total_period := policy.end_time - policy.start_time
      let remaining_period := if now < policy.end_time then policy.end_time - now else 0
      if 0 < remaining_period ∧ total_period = 0 then none
      else
        let refund : Int :=
          if 0 < remaining_period then
            Int.tdiv (policy.premium_paid * (remaining_period : Int)) (total_period : Int)
          else 0
        let s1 :=
          { s with policies := setKV owner { policy with status := PolicyStatus.Cancelled } s.policies }
        if 0 < refund then
          (transferFromContract s1 refund).map fun s2 =>
            { s2 with premium_pool := s2.premium_pool - refund }
        else some s1

/-- The rolling-window count computed inside `check_fraud`: entries of the
stored recent-claims list whose claim record exists and was submitted within
the 30-day lookback. -/
def recentClaimCount (s : ContractState) (m : FraudMetrics) (now : Nat) : Nat :=
  let lookback_time := if FRAUD_LOOKBACK_PERIOD < now then now - FRAUD_LOOKBACK_PERIOD else 0
  (m.recent_claims.filter fun cid =>
    match lookupKV cid s.claims with
    | some c => decide (lookback_time ≤ c.submission_time)
    | none => false).length

/-- `check_fraud` of the source; `true` means the claim attempt passes.  The
source computes `current_time - metrics.last_claim_time` in u64, which panics
when `now < last_claim_time`; that (abort) case is also `false` here. -/
def check_fraud (s : ContractState) (user : Nat) (now : Nat) : Bool :=
  let metrics := (lookupKV user s.fraud_flags).getD defaultFraudMetrics
  if metrics.flagged then false
  else if 0 < metrics.last_claim_time ∧ now < metrics.last_claim_time then false
  else if 0 < metrics.last_claim_time ∧
      now - metrics.last_claim_time < s.config.claim_cooldown then false
  else decide (recentClaimCount s metrics now < s.config.max_claims_per_period)

/-- `update_fraud_metrics` of the source. -/
def update_fraud_metrics (s : ContractState) (user : Nat) (claim_id : Nat)
    (now : Nat) : ContractState :=
  let metrics := (lookupKV user s.fraud_flags).getD defaultFraudMetrics
  let lookback_time := if FRAUD_LOOKBACK_PERIOD < now then now - FRAUD_LOOKBACK_PERIOD else 0
  let kept := metrics.recent_claims.filter fun cid =>
    match lookupKV cid s.claims with
    | some c => decide (lookback_time ≤ c.submission_time)
    | none => false
  let metrics' :=
    { metrics with
        total_claims := metrics.total_claims + 1
        last_claim_time := now
        recent_claims := kept ++ [claim_id] }
  { s with fraud_flags := setKV user metrics' s.fraud_flags }

/-- `add_to_user_claims` of the source. -/
def add_to_user_claims (s : ContractState) (user : Nat) (claim_id : Nat) :
    ContractState :=
  let claims := (lookupKV user s.user_claims).getD []
  { s with user_claims := setKV user (claims ++ [claim_id]) s.user_claims }

/-- The coverage-type/asset-type compatibility check of `submit_claim`
(`true` = compatible, the wildcard arm of the source's `match`). -/
def coverageCompatible : CoverageType → AssetType → Bool
  | CoverageType.NFT, AssetType.Token => false
  | CoverageType.Token, AssetType.NFT => false
  | _, _ => true

/-- `submit_claim` of the source; returns the new claim id with the new state. -/
def submit_claim (s : ContractState) (claimant : Nat) (asset_type : AssetType)
    (asset_address : Nat) (claim_amount : Int) (description : String)
    (now : Nat) : Option (Nat × ContractState) :=
  if s.config.paused then none
  else
    match lookupKV claimant s.policies with
    | none => none
    | some policy =>
      if policy.status ≠ PolicyStatus.Active then none
      else if now < policy.start_time ∨ policy.end_time < now then none
      else if ¬ coverageCompatible policy.coverage_type asset_type then none
      else if claim_amount ≤ 0 ∨ policy.coverage_amount < claim_amount then none
      else if ¬ check_fraud s claimant now then none
      else
        let new_claim_id := s.claim_counter + 1
        let claim : Claim :=
          { claim_id := new_claim_id
            policy_owner := claimant
            asset_type := asset_type
            asset_address := asset_address
            claim_amount := claim_amount
            description := description
            submission_time := now
            status := ClaimStatus.Submitted
            review_notes := ""
            payout_amount := 0
            payout_time := 0 }
        let s1 :=
          { s with
              claim_counter := new_claim_id
              claims := setKV new_claim_id claim s.claims }
        let s2 := add_to_user_claims s1 claimant new_claim_id
        let s3 := update_fraud_metrics s2 claimant new_claim_id now
        some (new_claim_id, { s3 with total_claims := s3.total_claims + 1 })

/-- `review_claim` of the source. -/
def review_claim (s : ContractState) (admin : Nat) (claim_id : Nat)
    (approved : Bool) (review_notes : String) (payout_amount : Int) :
    Option ContractState :=
  if s.config.admin ≠ admin then none
  else
    match lookupKV claim_id s.claims with
    | none => none
    | some claim =>
      if claim.status ≠ ClaimStatus.Submitted ∧ claim.status ≠ ClaimStatus.UnderReview
      then none
      else if approved ∧ (payout_amount ≤ 0 ∨ claim.claim_amount < payout_amount)
      then none
      else
        let claim' :=
          if approved then
            { claim with
                status := ClaimStatus.Approved
                payout_amount := payout_amount
                review_notes := review_notes }
          else
            { claim with
                status := ClaimStatus.Rejected
                payout_amount := 0
                review_notes := review_notes }
        some { s with claims := setKV claim_id claim' s.claims }

/-- `process_payout` of the source. -/
def process_payout (s : ContractState) (admin : Nat) (claim_id : Nat)
    (now : Nat) : Option ContractState :=
  if s.config.admin ≠ admin then none
  else
    match lookupKV claim_id s.claims with
    | none => none
    | some claim =>
      if claim.status ≠ ClaimStatus.Approved then none
      else if s.premium_pool < claim.payout_amount then none
      else
        (transferFromContract s claim.payout_amount).map fun s1 =>
          let claim' := { claim with status := ClaimStatus.Paid, payout_time := now }
          let s2 := { s1 with claims := setKV claim_id claim' s1.claims }
          { s2 with premium_pool := s2.premium_pool - claim.payout_amount }

/-- `add_to_pool` of the source. -/
def add_to_pool (s : ContractState) (admin : Nat) (amount : Int) :
    Option ContractState :=
  if s.config.admin ≠ admin then none
  else if amount ≤ 0 then none
  else
    (transferToContract s amount).map fun s1 =>
      { s1 with premium_pool := s1.premium_pool + amount }

/-- `withdraw_from_pool` of the source. -/
def withdraw_from_pool (s : ContractState) (admin : Nat) (amount : Int) :
    Option ContractState :=
  if s.config.admin ≠ admin then none
  else if amount ≤ 0 then none
  else if s.premium_pool < amount then none
  else
    (transferFromContract s amount).map fun s1 =>
      { s1 with premium_pool := s1.premium_pool - amount }

/-- `emergency_withdraw` of the source; returns the drained amount. -/
def emergency_withdraw (s : ContractState) (admin : Nat) :
    Option (Int × ContractState) :=
  if s.config.admin ≠ admin then none
  else if 0 < s.premium_pool then
    (transferFromContract s s.premium_pool).map fun s1 =>
      (s.premium_pool, { s1 with premium_pool := 0 })
  else some (s.premium_pool, s)

/-- `flag_user` of the source. -/
def flag_user (s : ContractState) (admin user : Nat) (reason : String) :
    Option ContractState :=
  if s.config.admin ≠ admin then none
  else
    let metrics := (lookupKV user s.fraud_flags).getD defaultFraudMetrics
    let metrics' := { metrics with flagged := true, flag_reason := reason }
    some { s with fraud_flags := setKV user metrics' s.fraud_flags }

/-- `unflag_user` of the source. -/
def unflag_user (s : ContractState) (admin user : Nat) : Option ContractState :=
  if s.config.admin ≠ admin then none
  else
    match lookupKV user s.fraud_flags with
    | none => some s
    | some metrics =>
      let metrics' := { metrics with flagged := false, flag_reason := "" }
      some { s with fraud_flags := setKV user metrics' s.fraud_flags }

/-- `update_premium_rates` of the source. -/
def update_premium_rates (s : ContractState) (admin : Nat)
    (base_rate nft_mult token_mult combined_mult : Nat) : Option ContractState :=
  if s.config.admin ≠ admin then none
  else
    some { s with config :=
      { s.config with
          base_premium_rate := base_rate
          nft_multiplier := nft_mult
          token_multiplier := token_mult
          combined_multiplier := combined_mult } }

/-- `update_coverage_limits` of the source. -/
def update_coverage_limits (s : ContractState) (admin : Nat)
    (min_period max_period : Nat) (max_amount : Int) : Option ContractState :=
  if s.config.admin ≠ admin then none
  else
    some { s with config :=
      { s.config with
          min_coverage_period := min_period
          max_coverage_period := max_period
          max_coverage_amount := max_amount } }

/-- `update_fraud_params` of the source. -/
def update_fraud_params (s : ContractState) (admin : Nat)
    (max_claims : Nat) (cooldown : Nat) : Option ContractState :=
  if s.config.admin ≠ admin then none
  else
    some { s with config :=
      { s.config with
          max_claims_per_period := max_claims
          claim_cooldown := cooldown } }

/-- `set_paused` of the source. -/
def set_paused (s : ContractState) (admin : Nat) (paused : Bool) :
    Option ContractState :=
  if s.config.admin ≠ admin then none
  else some { s with config := { s.config with paused := paused } }

/-- `get_fraud_metrics` view of the source: a bare storage read returning
`Option`. -/
def get_fraud_metrics (s : ContractState) (user : Nat) : Option FraudMetrics :=
  lookupKV user s.fraud_flags

/-- `get_premium_pool` view of the source. -/
def get_premium_pool (s : ContractState) : Int :=
  s.premium_pool

/-- `get_policy` view of the source. -/
def get_policy (s : ContractState) (user : Nat) : Option InsurancePolicy :=
  lookupKV user s.policies

/-- `get_claim` view of the source. -/
def get_claim (s : ContractState) (claim_id : Nat) : Option Claim :=
  lookupKV claim_id s.claims

/-- `calculate_premium` view of the source (same internal function, stored
config). -/
def calculate_premium (s : ContractState) (coverage_type : CoverageType)
    (coverage_amount : Int) (coverage_period : Nat) : Int :=
  calculate_premium_internal s.config coverage_type coverage_amount coverage_period

/-- The alphabet of public mutating entry points of the contract. -/
inductive Op where
  | purchase (owner : Nat) (ct : CoverageType) (amount : Int) (period : Nat) (asset : Nat)
  | renew (owner : Nat) (period : Nat)
  | cancel (owner : Nat)
  | submit (claimant : Nat) (aty : AssetType) (asset : Nat) (amount : Int) (desc : String)
  | review (caller : Nat) (cid : Nat) (approved : Bool) (notes : String) (payout : Int)
  | payout (caller : Nat) (cid : Nat)
  | addPool (caller : Nat) (amount : Int)
  | withdrawPool (caller : Nat) (amount : Int)
  | emergency (caller : Nat)
  | flag (caller user : Nat) (reason : String)
  | unflag (caller user : Nat)
  | updateRates (caller : Nat) (b n t c : Nat)
  | updateLimits (caller : Nat) (minP maxP : Nat) (maxA : Int)
  | updateFraud (caller : Nat) (maxC cd : Nat)
  | pauseSwitch (caller : Nat) (b : Bool)
deriving DecidableEq

/-- One committed transaction: dispatch an operation at ledger time `now`;
`none` is an aborted (fully rolled back) call. -/
def applyOp (s : ContractState) (op : Op) (now : Nat) : Option ContractState :=
  match op with
  | Op.purchase o ct a p ar => purchase_policy s o ct a p ar now
  | Op.renew o p => renew_policy s o p now
  | Op.cancel o => cancel_policy s o now
  | Op.submit c aty ar a d => (submit_claim s c aty ar a d now).map Prod.snd
  | Op.review c cid ap n pa => review_claim s c cid ap n pa
  | Op.payout c cid => process_payout s c cid now
  | Op.addPool c a => add_to_pool s c a
  | Op.withdrawPool c a => withdraw_from_pool s c a
  | Op.emergency c => (emergency_withdraw s c).map Prod.snd
  | Op.flag c u r => flag_user s c u r
  | Op.unflag c u => unflag_user s c u
  | Op.updateRates c b n t cm => update_premium_rates s c b n t cm
  | Op.updateLimits c mn mx ma => update_coverage_limits s c mn mx ma
  | Op.updateFraud c mc cd => update_fraud_params s c mc cd
  | Op.pauseSwitch c b => set_paused s c b

/-- States reachable by committed operations from some initialization. -/
inductive Reachable : ContractState → Prop where
  | init (admin payment_token base_rate : Nat) :
      Reachable (initContract admin payment_token base_rate)
  | step {s s' : ContractState} (op : Op) (now : Nat) :
      Reachable s → applyOp s op now = some s' → Reachable s'

/-- A committed trace between two states, with the operations recorded. -/
inductive TraceReach : ContractState → List (Op × Nat) → ContractState → Prop where
  | nil (s : ContractState) : TraceReach s [] s
  | cons {s s₁ s₂ : ContractState} {op : Op} {now : Nat} {tr : List (Op × Nat)} :
      applyOp s op now = some s₁ → TraceReach s₁ tr s₂ →
      TraceReach s ((op, now) :: tr) s₂

theorem lookupKV_setKV_self {α : Type} (k : Nat) (v : α) (l : List (Nat × α)) :
    lookupKV k (setKV k v l) = some v := by
  simp [lookupKV, setKV]

theorem lookupKV_setKV_ne {α : Type} {k k' : Nat} (v : α) (l : List (Nat × α))
    (h : k ≠ k') : lookupKV k (setKV k' v l) = lookupKV k l := by
  simp [lookupKV, setKV, h]

theorem one_le_premium (c : InsuranceConfig) (ct : CoverageType) (a : Int)
    (p : Nat) : 1 ≤ calculate_premium_internal c ct a p := by
  unfold calculate_premium_internal
  dsimp only
  split
  · exact le_refl 1
  · omega

theorem transferToContract_eq_some {s s' : ContractState} {a : Int}
    (h : transferToContract s a = some s') :
    0 ≤ a ∧ s' = { s with contract_balance := s.contract_balance + a } := by
  unfold transferToContract at h
  split at h
  · exact ⟨by assumption, (Option.some_inj.mp h).symm⟩
  · exact absurd h (by simp)

theorem transferFromContract_eq_some {s s' : ContractState} {a : Int}
    (h : transferFromContract s a = some s') :
    0 ≤ a ∧ a ≤ s.contract_balance ∧
      s' = { s with contract_balance := s.contract_balance - a } := by
  unfold transferFromContract at h
  split at h
  · rename_i hc
    exact ⟨hc.1, hc.2, (Option.some_inj.mp h).symm⟩
  · exact absurd h (by simp)

theorem add_to_policy_list_proj (s : ContractState) (u : Nat) :
    (add_to_policy_list s u).premium_pool = s.premium_pool ∧
    (add_to_policy_list s u).contract_balance = s.contract_balance ∧
    (add_to_policy_list s u).claims = s.claims ∧
    (add_to_policy_list s u).fraud_flags = s.fraud_flags ∧
    (add_to_policy_list s u).claim_counter = s.claim_counter ∧
    (add_to_policy_list s u).policies = s.policies ∧
    (add_to_policy_list s u).config = s.config := by
  unfold add_to_policy_list
  split <;> simp

theorem purchase_policy_effects {s s' : ContractState} {o : Nat}
    {ct : CoverageType} {a : Int} {p ar now : Nat}
    (h : purchase_policy s o ct a p ar now = some s') :
    ∃ prem : Int, 1 ≤ prem ∧
      s'.premium_pool = s.premium_pool + prem ∧
      s'.contract_balance = s.contract_balance + prem ∧
      s'.claims = s.claims ∧
      s'.fraud_flags = s.fraud_flags ∧
      s'.claim_counter = s.claim_counter := by
  unfold purchase_policy at h
  split_ifs at h
  rw [Option.map_eq_some'] at h
  obtain ⟨s1, ht, rfl⟩ := h
  obtain ⟨hp, rfl⟩ := transferToContract_eq_some ht
  refine ⟨_, one_le_premium s.config ct a p, ?_⟩
  simp [add_to_policy_list]
  split <;> simp

theorem renew_policy_effects {s s' : ContractState} {o p now : Nat}
    (h : renew_policy s o p now = some s') :
    ∃ prem : Int, 1 ≤ prem ∧
      s'.premium_pool = s.premium_pool + prem ∧
      s'.contract_balance = s.contract_balance + prem ∧
      s'.claims = s.claims ∧
      s'.fraud_flags = s.fraud_flags ∧
      s'.claim_counter = s.claim_counter := by
  unfold renew_policy at h
  split at h
  · exact Option.noConfusion h
  split at h
  · exact Option.noConfusion h
  rename_i policy heq
  split at h
  · exact Option.noConfusion h
  dsimp only at h
  repeat' split at h
  all_goals try exact Option.noConfusion h
  all_goals
    rw [Option.map_eq_some'] at h
    obtain ⟨s1, ht, rfl⟩ := h
    obtain ⟨hp, rfl⟩ := transferToContract_eq_some ht
    exact ⟨_, one_le_premium s.config policy.coverage_type policy.coverage_amount p, by simp⟩

theorem cancel_policy_effects {s s' : ContractState} {o now : Nat}
    (h : cancel_policy s o now = some s') :
    ∃ refund : Int, 0 ≤ refund ∧ (refund = 0 ∨ refund ≤ s.contract_balance) ∧
      s'.premium_pool = s.premium_pool - refund ∧
      s'.contract_balance = s.contract_balance - refund ∧
      s'.claims = s.claims ∧
      s'.fraud_flags = s.fraud_flags ∧
      s'.claim_counter = s.claim_counter := by
  unfold cancel_policy at h
  repeat' split at h
  all_goals try exact Option.noConfusion h
  all_goals dsimp only at h
  all_goals repeat' split at h
  all_goals try exact Option.noConfusion h
  all_goals first
  | (rw [Option.map_eq_some'] at h
     obtain ⟨s1, ht, rfl⟩ := h
     obtain ⟨hp, hb, rfl⟩ := transferFromContract_eq_some ht
     exact ⟨_, hp, Or.inr hb, by simp⟩)
  | (obtain rfl := Option.some_inj.mp h
     exact ⟨0, le_refl 0, Or.inl rfl, by simp⟩)

theorem submit_claim_effects {s s' : ContractState} {c : Nat} {aty : AssetType}
    {ar : Nat} {a : Int} {d : String} {now cid : Nat}
    (h : submit_claim s c aty ar a d now = some (cid, s')) :
    cid = s.claim_counter + 1 ∧
    s'.premium_pool = s.premium_pool ∧
    s'.contract_balance = s.contract_balance ∧
    s'.claim_counter = s.claim_counter + 1 ∧
    (∀ k cl, lookupKV k s'.claims = some cl →
      lookupKV k s.claims = some cl ∨ cl.status = ClaimStatus.Submitted) ∧
    (∀ u, u ≠ c → lookupKV u s'.fraud_flags = lookupKV u s.fraud_flags) := by
  unfold submit_claim at h
  repeat' split at h
  all_goals try exact Option.noConfusion h
  simp only [Option.some_inj, Prod.mk.injEq] at h
  obtain ⟨rfl, rfl⟩ := h
  refine ⟨rfl, by simp [update_fraud_metrics, add_to_user_claims],
    by simp [update_fraud_metrics, add_to_user_claims],
    by simp [update_fraud_metrics, add_to_user_claims], ?_, ?_⟩
  · intro k cl hk
    simp only [update_fraud_metrics, add_to_user_claims] at hk
    by_cases hke : k = s.claim_counter + 1
    · subst hke
      rw [lookupKV_setKV_self] at hk
      obtain rfl := Option.some_inj.mp hk
      exact Or.inr rfl
    · rw [lookupKV_setKV_ne _ _ hke] at hk
      exact Or.inl hk
  · intro u hu
    simp only [update_fraud_metrics, add_to_user_claims]
    exact lookupKV_setKV_ne _ _ hu

theorem review_claim_effects {s s' : ContractState} {c cid : Nat}
    {ap : Bool} {n : String} {pa : Int}
    (h : review_claim s c cid ap n pa = some s') :
    s'.premium_pool = s.premium_pool ∧
    s'.contract_balance = s.contract_balance ∧
    s'.claim_counter = s.claim_counter ∧
    s'.fraud_flags = s.fraud_flags ∧
    (∀ k cl, lookupKV k s'.claims = some cl →
      lookupKV k s.claims = some cl ∨
      cl.status = ClaimStatus.Approved ∨ cl.status = ClaimStatus.Rejected) := by
  unfold review_claim at h
  repeat' split at h
  all_goals try exact Option.noConfusion h
  all_goals
    obtain rfl := Option.some_inj.mp h
    refine ⟨rfl, rfl, rfl, rfl, ?_⟩
    intro k cl hk
    dsimp only at hk
    by_cases hke : k = cid
    · subst hke
      rw [lookupKV_setKV_self] at hk
      obtain rfl := Option.some_inj.mp hk
      first
      | exact Or.inr (Or.inl rfl)
      | exact Or.inr (Or.inr rfl)
    · rw [lookupKV_setKV_ne _ _ hke] at hk
      exact Or.inl hk

theorem process_payout_effects {s s' : ContractState} {c cid now : Nat}
    (h : process_payout s c cid now = some s') :
    ∃ pa : Int, 0 ≤ pa ∧ pa ≤ s.premium_pool ∧ pa ≤ s.contract_balance ∧
    s'.premium_pool = s.premium_pool - pa ∧
    s'.contract_balance = s.contract_balance - pa ∧
    s'.claim_counter = s.claim_counter ∧
    s'.fraud_flags = s.fraud_flags ∧
    (∀ k cl, lookupKV k s'.claims = some cl →
      lookupKV k s.claims = some cl ∨ cl.status = ClaimStatus.Paid) := by
  unfold process_payout at h
  repeat' split at h
  all_goals try exact Option.noConfusion h
  rename_i claim heq hst hpool
  rw [Option.map_eq_some'] at h
  obtain ⟨s1, ht, rfl⟩ := h
  obtain ⟨hp, hb, rfl⟩ := transferFromContract_eq_some ht
  refine ⟨claim.payout_amount, hp, by omega, hb, by simp, by simp, by simp, by simp, ?_⟩
  intro k cl hk
  simp only at hk
  by_cases hke : k = cid
  · subst hke
    rw [lookupKV_setKV_self] at hk
    obtain rfl := Option.some_inj.mp hk
    exact Or.inr rfl
  · rw [lookupKV_setKV_ne _ _ hke] at hk
    exact Or.inl hk

theorem add_to_pool_effects {s s' : ContractState} {c : Nat} {a : Int}
    (h : add_to_pool s c a = some s') :
    0 < a ∧
    s'.premium_pool = s.premium_pool + a ∧
    s'.contract_balance = s.contract_balance + a ∧
    s'.claims = s.claims ∧
    s'.fraud_flags = s.fraud_flags ∧
    s'.claim_counter = s.claim_counter := by
  unfold add_to_pool at h
  repeat' split at h
  all_goals try exact Option.noConfusion h
  rw [Option.map_eq_some'] at h
  obtain ⟨s1, ht, rfl⟩ := h
  obtain ⟨hp, rfl⟩ := transferToContract_eq_some ht
  exact ⟨by omega, by simp⟩

theorem withdraw_from_pool_effects {s s' : ContractState} {c : Nat} {a : Int}
    (h : withdraw_from_pool s c a = some s') :
    0 < a ∧ a ≤ s.premium_pool ∧ a ≤ s.contract_balance ∧
    s'.premium_pool = s.premium_pool - a ∧
    s'.contract_balance = s.contract_balance - a ∧
    s'.claims = s.claims ∧
    s'.fraud_flags = s.fraud_flags ∧
    s'.claim_counter = s.claim_counter := by
  unfold withdraw_from_pool at h
  repeat' split at h
  all_goals try exact Option.noConfusion h
  rw [Option.map_eq_some'] at h
  obtain ⟨s1, ht, rfl⟩ := h
  obtain ⟨hp, hb, rfl⟩ := transferFromContract_eq_some ht
  exact ⟨by omega, by omega, hb, by simp⟩

theorem emergency_withdraw_effects {s s' : ContractState} {c : Nat} {r : Int}
    (h : emergency_withdraw s c = some (r, s')) :
    s' = s ∨
    (0 < s.premium_pool ∧ s.premium_pool ≤ s.contract_balance ∧
      s'.premium_pool = 0 ∧
      s'.contract_balance = s.contract_balance - s.premium_pool ∧
      s'.claims = s.claims ∧
      s'.fraud_flags = s.fraud_flags ∧
      s'.claim_counter = s.claim_counter) := by
  unfold emergency_withdraw at h
  repeat' split at h
  all_goals try exact Option.noConfusion h
  · rw [Option.map_eq_some'] at h
    obtain ⟨s1, ht, he⟩ := h
    obtain ⟨hp, hb, rfl⟩ := transferFromContract_eq_some ht
    obtain ⟨rfl, rfl⟩ := Prod.mk.injEq .. ▸ he
    exact Or.inr ⟨by assumption, hb, by simp⟩
  · simp only [Option.some_inj, Prod.mk.injEq] at h
    exact Or.inl h.2.symm

theorem flag_user_effects {s s' : ContractState} {c u : Nat} {r : String}
    (h : flag_user s c u r = some s') :
    s'.premium_pool = s.premium_pool ∧
    s'.contract_balance = s.contract_balance ∧
    s'.claims = s.claims ∧
    s'.claim_counter = s.claim_counter ∧
    (∀ v, v ≠ u → lookupKV v s'.fraud_flags = lookupKV v s.fraud_flags) := by
  unfold flag_user at h
  repeat' split at h
  all_goals try exact Option.noConfusion h
  obtain rfl := Option.some_inj.mp h
  exact ⟨rfl, rfl, rfl, rfl, fun v hv => lookupKV_setKV_ne _ _ hv⟩

theorem unflag_user_effects {s s' : ContractState} {c u : Nat}
    (h : unflag_user s c u = some s') :
    s'.premium_pool = s.premium_pool ∧
    s'.contract_balance = s.contract_balance ∧
    s'.claims = s.claims ∧
    s'.claim_counter = s.claim_counter ∧
    (∀ v, v ≠ u → lookupKV v s'.fraud_flags = lookupKV v s.fraud_flags) := by
  unfold unflag_user at h
  repeat' split at h
  all_goals try exact Option.noConfusion h
  all_goals obtain rfl := Option.some_inj.mp h
  · exact ⟨rfl, rfl, rfl, rfl, fun v hv => rfl⟩
  · exact ⟨rfl, rfl, rfl, rfl, fun v hv => lookupKV_setKV_ne _ _ hv⟩

theorem config_ops_effects {s s' : ContractState} :
    (∀ c b n t cm, update_premium_rates s c b n t cm = some s' →
      s' = { s with config := { s.config with base_premium_rate := b, nft_multiplier := n, token_multiplier := t, combined_multiplier := cm } }) ∧
    (∀ c mn mx ma, update_coverage_limits s c mn mx ma = some s' →
      s' = { s with config := { s.config with min_coverage_period := mn, max_coverage_period := mx, max_coverage_amount := ma } }) ∧
    (∀ c mc cd, update_fraud_params s c mc cd = some s' →
      s' = { s with config := { s.config with max_claims_per_period := mc, claim_cooldown := cd } }) ∧
    (∀ c b, set_paused s c b = some s' →
      s' = { s with config := { s.config with paused := b } }) := by
  refine ⟨?_, ?_, ?_, ?_⟩ <;>
    intro c
  all_goals
    intros
    rename_i h
    first
    | (unfold update_premium_rates at h)
    | (unfold update_coverage_limits at h)
    | (unfold update_fraud_params at h)
    | (unfold set_paused at h)
    split at h
    · exact Option.noConfusion h
    · exact (Option.some_inj.mp h).symm

/-- The inductive state invariant: the stored premium pool equals the
contract's token balance, that balance is non-negative, and no stored claim
has status UnderReview. -/
def StateInv (s : ContractState) : Prop :=
  0 ≤ s.contract_balance ∧
  s.premium_pool = s.contract_balance ∧
  ∀ k cl, lookupKV k s.claims = some cl → cl.status ≠ ClaimStatus.UnderReview

theorem stateInv_init (a t r : Nat) : StateInv (initContract a t r) := by
  refine ⟨by simp [initContract], by simp [initContract], ?_⟩
  intro k cl hk
  simp [initContract, lookupKV] at hk

theorem stateInv_step {s s' : ContractState} {op : Op} {now : Nat}
    (hs : StateInv s) (h : applyOp s op now = some s') : StateInv s' := by
  obtain ⟨hb, he, hc⟩ := hs
  cases op with
  | purchase o ct a p ar =>
    obtain ⟨prem, h1, h2, h3, h4, h5, h6⟩ := purchase_policy_effects h
    exact ⟨by omega, by omega, fun k cl hk => hc k cl (h4 ▸ hk)⟩
  | renew o p =>
    obtain ⟨prem, h1, h2, h3, h4, h5, h6⟩ := renew_policy_effects h
    exact ⟨by omega, by omega, fun k cl hk => hc k cl (h4 ▸ hk)⟩
  | cancel o =>
    obtain ⟨refund, h1, h1b, h2, h3, h4, h5, h6⟩ := cancel_policy_effects h
    rcases h1b with rfl | h1b
    · exact ⟨by omega, by omega, fun k cl hk => hc k cl (h4 ▸ hk)⟩
    · exact ⟨by omega, by omega, fun k cl hk => hc k cl (h4 ▸ hk)⟩
  | submit c aty ar a d =>
    rw [applyOp, Option.map_eq_some'] at h
    obtain ⟨⟨cid, s2⟩, hsub, rfl⟩ := h
    obtain ⟨h0, h1, h2, h3, h4, h5⟩ := submit_claim_effects hsub
    show StateInv s2
    refine ⟨by omega, by omega, ?_⟩
    intro k cl hk
    rcases h4 k cl hk with hold | hnew
    · exact hc k cl hold
    · rw [hnew]; intro hcontra; exact ClaimStatus.noConfusion hcontra
  | review c cid ap n pa =>
    obtain ⟨h1, h2, h3, h4, h5⟩ := review_claim_effects h
    refine ⟨by omega, by omega, ?_⟩
    intro k cl hk
    rcases h5 k cl hk with hold | hnew | hnew
    · exact hc k cl hold
    · rw [hnew]; intro hcontra; exact ClaimStatus.noConfusion hcontra
    · rw [hnew]; intro hcontra; exact ClaimStatus.noConfusion hcontra
  | payout c cid =>
    obtain ⟨pa, h0, h1, h2, h3, h4, h5, h6, h7⟩ := process_payout_effects h
    refine ⟨by omega, by omega, ?_⟩
    intro k cl hk
    rcases h7 k cl hk with hold | hnew
    · exact hc k cl hold
    · rw [hnew]; intro hcontra; exact ClaimStatus.noConfusion hcontra
  | addPool c a =>
    obtain ⟨h0, h1, h2, h3, h4, h5⟩ := add_to_pool_effects h
    exact ⟨by omega, by omega, fun k cl hk => hc k cl (h3 ▸ hk)⟩
  | withdrawPool c a =>
    obtain ⟨h0, h1, h2, h3, h4, h5, h6, h7⟩ := withdraw_from_pool_effects h
    exact ⟨by omega, by omega, fun k cl hk => hc k cl (h5 ▸ hk)⟩
  | emergency c =>
    rw [applyOp, Option.map_eq_some'] at h
    obtain ⟨⟨r, s2⟩, hem, rfl⟩ := h
    show StateInv s2
    rcases emergency_withdraw_effects hem with rfl | ⟨h0, h1, h2, h3, h4, h5, h6⟩
    · exact ⟨hb, he, hc⟩
    · exact ⟨by omega, by omega, fun k cl hk => hc k cl (h4 ▸ hk)⟩
  | flag c u r =>
    obtain ⟨h1, h2, h3, h4, h5⟩ := flag_user_effects h
    exact ⟨by omega, by omega, fun k cl hk => hc k cl (h3 ▸ hk)⟩
  | unflag c u =>
    obtain ⟨h1, h2, h3, h4, h5⟩ := unflag_user_effects h
    exact ⟨by omega, by omega, fun k cl hk => hc k cl (h3 ▸ hk)⟩
  | updateRates c b n t cm =>
    obtain rfl := config_ops_effects.1 c b n t cm h
    exact ⟨hb, he, hc⟩
  | updateLimits c mn mx ma =>
    obtain rfl := config_ops_effects.2.1 c mn mx ma h
    exact ⟨hb, he, hc⟩
  | updateFraud c mc cd =>
    obtain rfl := config_ops_effects.2.2.1 c mc cd h
    exact ⟨hb, he, hc⟩
  | pauseSwitch c b =>
    obtain rfl := config_ops_effects.2.2.2 c b h
    exact ⟨hb, he, hc⟩

theorem stateInv_reachable {s : ContractState} (h : Reachable s) : StateInv s := by
  induction h with
  | init a t r => exact stateInv_init a t r
  | step op now _ hstep ih => exact stateInv_step ih hstep

/-- A concrete freshly initialized instance used by witnesses. -/
def exState0 : ContractState := initContract 0 1 100

/-- State after principal 2 buys a 90-day Token policy of amount 1000000 at
ledger time 0. -/
def exState1 : ContractState :=
  (purchase_policy exState0 2 CoverageType.Token 1000000 (90 * 86400) 3 0).getD exState0

/-- State after principal 2 then submits claim 1 at ledger time 0. -/
def exState2 : ContractState :=
  ((submit_claim exState1 2 AssetType.Token 3 100 "" 0).map Prod.snd).getD exState1

/-- The stored claim record created in `exState2`. -/
def exClaim1 : Claim :=
  { claim_id := 1
    policy_owner := 2
    asset_type := AssetType.Token
    asset_address := 3
    claim_amount := 100
    description := ""
    submission_time := 0
    status := ClaimStatus.Submitted
    review_notes := ""
    payout_amount := 0
    payout_time := 0 }

theorem reachable_exState1 : Reachable exState1 :=
  Reachable.step (Op.purchase 2 CoverageType.Token 1000000 (90 * 86400) 3) 0
    (Reachable.init 0 1 100) rfl

theorem reachable_exState2 : Reachable exState2 :=
  Reachable.step (Op.submit 2 AssetType.Token 3 100 "") 0 reachable_exState1 rfl

/-- C1: for every sequence of committed operations starting from
initialization, the stored PremiumPool balance is non-negative after every
committed call; an operation that would drive the pool below zero (the
refund debit of cancel_policy, process_payout, withdraw_from_pool,
emergency_withdraw) aborts instead of committing, so no reachable state has
a negative pool. -/
theorem premium_pool_nonneg (s : ContractState) (h : Reachable s) :
    0 ≤ s.premium_pool := by
  obtain ⟨h1, h2, _⟩ := stateInv_reachable h
  omega

theorem premium_pool_nonneg_witness : 0 ≤ exState1.premium_pool :=
  premium_pool_nonneg exState1 reachable_exState1

/-- C10: no public operation ever stores a claim with status UnderReview
(submit_claim creates claims as Submitted, review_claim writes only
Approved or Rejected, process_payout writes only Paid), so in every
reachable state every stored claim's status is different from UnderReview. -/
theorem no_claim_under_review (s : ContractState) (h : Reachable s) (k : Nat)
    (cl : Claim) (hcl : lookupKV k s.claims = some cl) :
    cl.status ≠ ClaimStatus.UnderReview :=
  (stateInv_reachable h).2.2 k cl hcl

theorem no_claim_under_review_witness : exClaim1.status ≠ ClaimStatus.UnderReview :=
  no_claim_under_review exState2 reachable_exState2 1 exClaim1 rfl

/-- C2: process_payout succeeds only if the stored claim is Approved and the
pool holds at least its payout_amount; with an insufficient pool the call
aborts (commits nothing); on success it debits the pool by exactly
payout_amount, marks the claim Paid and records payout_time = now. -/
theorem process_payout_correct (s : ContractState) (c cid now : Nat)
    (claim : Claim) (hcl : lookupKV cid s.claims = some claim) :
    (∀ s', process_payout s c cid now = some s' →
      claim.status = ClaimStatus.Approved ∧
      claim.payout_amount ≤ s.premium_pool ∧
      s'.premium_pool = s.premium_pool - claim.payout_amount ∧
      lookupKV cid s'.claims =
        some { claim with status := ClaimStatus.Paid, payout_time := now }) ∧
    (s.premium_pool < claim.payout_amount → process_payout s c cid now = none) := by
  unfold process_payout
  rw [hcl]
  constructor
  · intro s' h
    dsimp only at h
    split at h
    · exact Option.noConfusion h
    split at h
    · exact Option.noConfusion h
    split at h
    · exact Option.noConfusion h
    rename_i hadmin hst hpool
    rw [Option.map_eq_some'] at h
    obtain ⟨s1, ht, rfl⟩ := h
    obtain ⟨hp0, hpb, rfl⟩ := transferFromContract_eq_some ht
    refine ⟨not_not.mp hst, by omega, by simp, ?_⟩
    exact lookupKV_setKV_self cid _ s.claims
  · intro hlt
    dsimp only
    repeat' split
    all_goals rfl

/-- Arbitrary state holding an approved claim, for witnesses. -/
def exApproved : Claim :=
  { exClaim1 with status := ClaimStatus.Approved, payout_amount := 50 }

/-- A state whose pool (10) cannot honor the approved payout (50). -/
def exPoorState : ContractState :=
  { exState0 with
      claims := setKV 1 exApproved exState0.claims
      premium_pool := 10
      contract_balance := 10 }

theorem process_payout_correct_witness :
    lookupKV 1 exPoorState.claims = some exApproved ∧
    process_payout exPoorState 0 1 77 = none :=
  ⟨rfl, (process_payout_correct exPoorState 0 1 77 exApproved rfl).2 (by decide)⟩

/-- C7: review_claim succeeds only on claims with status Submitted or
UnderReview; with approval it demands 0 < payout_amount <= claim_amount and
stores status Approved with that payout; without approval it stores status
Rejected with payout 0; the review notes are stored in both outcomes. -/
theorem review_claim_correct (s : ContractState) (c cid : Nat) (ap : Bool)
    (n : String) (pa : Int) (claim : Claim)
    (hcl : lookupKV cid s.claims = some claim) :
    (claim.status ≠ ClaimStatus.Submitted ∧ claim.status ≠ ClaimStatus.UnderReview →
      review_claim s c cid ap n pa = none) ∧
    (∀ s', review_claim s c cid ap n pa = some s' →
      (claim.status = ClaimStatus.Submitted ∨ claim.status = ClaimStatus.UnderReview) ∧
      (ap = true → 0 < pa ∧ pa ≤ claim.claim_amount ∧
        lookupKV cid s'.claims = some { claim with
          status := ClaimStatus.Approved, payout_amount := pa, review_notes := n }) ∧
      (ap = false →
        lookupKV cid s'.claims = some { claim with
          status := ClaimStatus.Rejected, payout_amount := 0, review_notes := n })) := by
  unfold review_claim
  rw [hcl]
  constructor
  · intro hns
    dsimp only
    repeat' split
    all_goals rfl
  · intro s' h
    dsimp only at h
    split at h
    · exact Option.noConfusion h
    split at h
    · exact Option.noConfusion h
    split at h
    · exact Option.noConfusion h
    rename_i hadmin hst hpa
    have hstat : claim.status = ClaimStatus.Submitted ∨ claim.status = ClaimStatus.UnderReview := by
      by_cases h1 : claim.status = ClaimStatus.Submitted
      · exact Or.inl h1
      · refine Or.inr ?_
        by_cases h2 : claim.status = ClaimStatus.UnderReview
        · exact h2
        · exact absurd ⟨h1, h2⟩ hst
    obtain rfl := Option.some_inj.mp h
    refine ⟨hstat, ?_, ?_⟩
    · intro hap
      subst hap
      have hbound : 0 < pa ∧ pa ≤ claim.claim_amount := by
        rcases not_and_or.mp hpa with hcontra | hb
        · exact absurd rfl hcontra
        · rcases not_or.mp hb with ⟨h1, h2⟩
          omega
      refine ⟨hbound.1, hbound.2, ?_⟩
      simp only [if_pos rfl]
      exact lookupKV_setKV_self cid _ s.claims
    · intro hap
      subst hap
      simp only [if_neg Bool.false_ne_true]
      exact lookupKV_setKV_self cid _ s.claims

/-- A state holding one freshly submitted claim, for witnesses. -/
def exSubmittedState : ContractState :=
  { exState0 with claims := setKV 1 exClaim1 exState0.claims }

/-- The state after the admin rejects claim 1 in `exSubmittedState`. -/
def exReviewedState : ContractState :=
  (review_claim exSubmittedState 0 1 false "no" 0).getD exSubmittedState

/-- The rejected form of `exClaim1`. -/
def exRejected : Claim :=
  { exClaim1 with status := ClaimStatus.Rejected, payout_amount := 0, review_notes := "no" }

theorem review_claim_correct_witness :
    lookupKV 1 exSubmittedState.claims = some exClaim1 ∧
    review_claim exSubmittedState 0 1 false "no" 0 = some exReviewedState ∧
    lookupKV 1 exReviewedState.claims = some exRejected :=
  ⟨rfl, rfl,
    ((review_claim_correct exSubmittedState 0 1 false "no" 0 exClaim1 rfl).2
      exReviewedState rfl).2.2 rfl⟩

/-- Overwrite only the pause flag of a state's config. -/
def setPausedFlag (s : ContractState) (b : Bool) : ContractState :=
  { s with config := { s.config with paused := b } }

theorem transferFromContract_setPausedFlag (s : ContractState) (b : Bool) (a : Int) :
    transferFromContract (setPausedFlag s b) a =
      Option.map (fun t => setPausedFlag t b) (transferFromContract s a) := by
  unfold transferFromContract setPausedFlag
  dsimp only
  split <;> rfl

/-- C8: with the paused flag set, purchase_policy, renew_policy and
submit_claim abort before any state change, while review_claim and
process_payout are insensitive to the flag: running them on a state with
the flag forced to any value gives the same result (with the same flag)
as on the unpaused state. -/
theorem paused_gating :
    (∀ s o ct a p ar now, s.config.paused = true →
      purchase_policy s o ct a p ar now = none) ∧
    (∀ s o p now, s.config.paused = true → renew_policy s o p now = none) ∧
    (∀ s c aty ar a d now, s.config.paused = true →
      submit_claim s c aty ar a d now = none) ∧
    (∀ s b c cid ap n pa, review_claim (setPausedFlag s b) c cid ap n pa =
      Option.map (fun t => setPausedFlag t b) (review_claim s c cid ap n pa)) ∧
    (∀ s b c cid now, process_payout (setPausedFlag s b) c cid now =
      Option.map (fun t => setPausedFlag t b) (process_payout s c cid now)) := by
  refine ⟨?_, ?_, ?_, ?_, ?_⟩
  · intro s o ct a p ar now h
    unfold purchase_policy
    rw [if_pos h]
  · intro s o p now h
    unfold renew_policy
    rw [if_pos h]
  · intro s c aty ar a d now h
    unfold submit_claim
    rw [if_pos h]
  · intro s b c cid ap n pa
    unfold review_claim setPausedFlag
    dsimp only
    split
    · rfl
    cases lookupKV cid s.claims with
    | none => rfl
    | some claim =>
      dsimp only
      split
      · rfl
      split
      · rfl
      split <;> rfl
  · intro s b c cid now
    unfold process_payout
    have hadmin : (setPausedFlag s b).config.admin = s.config.admin := rfl
    have hpool : (setPausedFlag s b).premium_pool = s.premium_pool := rfl
    have hclaims : (setPausedFlag s b).claims = s.claims := rfl
    rw [hadmin, hpool, hclaims]
    split
    · rfl
    cases lookupKV cid s.claims with
    | none => rfl
    | some claim =>
      dsimp only
      split
      · rfl
      split
      · rfl
      rw [transferFromContract_setPausedFlag]
      cases transferFromContract s claim.payout_amount with
      | none => rfl
      | some s1 => rfl

/-- A paused instance, for witnesses. -/
def exPausedState : ContractState := setPausedFlag exState0 true

theorem paused_gating_witness :
    exPausedState.config.paused = true ∧
    purchase_policy exPausedState 2 CoverageType.Token 1000 (7 * 86400) 3 0 = none :=
  ⟨rfl, paused_gating.1 exPausedState 2 CoverageType.Token 1000 (7 * 86400) 3 0 rfl⟩

/-- Truncating and floor division agree on non-negative operands. -/
theorem tdiv_eq_fdiv_of_nonneg {a b : Int} (ha : 0 ≤ a) (hb : 0 ≤ b) :
    Int.tdiv a b = Int.fdiv a b := by
  rw [Int.tdiv_eq_ediv ha hb, Int.fdiv_eq_ediv _ hb]

theorem if_lt_one_eq_max (x : Int) : (if x < 1 then 1 else x) = max 1 x := by
  rcases lt_or_le x 1 with h | h
  · rw [if_pos h, max_eq_left (by omega)]
  · rw [if_neg (by omega), max_eq_right h]


/-- Core arithmetic step behind claim C4: for a positive amount, the
truncating i128 divisions of the source agree with the floor divisions of
the spec formula. -/
theorem premium_formula_general (b m : Nat) (amount : Int) (period : Nat)
    (hpos : 0 < amount) :
    (if Int.tdiv (amount * Int.tdiv ((b : Int) * (m : Int)) 100 *
        ((period / SECONDS_PER_DAY : Nat) : Int)) (365 * (BASIS_POINTS : Int)) < 1
      then 1
      else Int.tdiv (amount * Int.tdiv ((b : Int) * (m : Int)) 100 *
        ((period / SECONDS_PER_DAY : Nat) : Int)) (365 * (BASIS_POINTS : Int))) =
    max 1 (Int.fdiv (amount * Int.fdiv ((b : Int) * (m : Int)) 100 *
      ((period / 86400 : Nat) : Int)) (365 * 10000)) := by
  have hm : (0 : Int) ≤ (b : Int) * (m : Int) :=
    mul_nonneg (Int.natCast_nonneg _) (Int.natCast_nonneg _)
  have h100 : (0 : Int) ≤ 100 := by norm_num
  have har := Int.tdiv_nonneg hm h100
  rw [tdiv_eq_fdiv_of_nonneg hm h100]
  rw [tdiv_eq_fdiv_of_nonneg hm h100] at har
  have hnum : (0 : Int) ≤ amount * Int.fdiv ((b : Int) * (m : Int)) 100 *
      ((period / SECONDS_PER_DAY : Nat) : Int) :=
    mul_nonneg (mul_nonneg hpos.le har) (Int.natCast_nonneg _)
  rw [tdiv_eq_fdiv_of_nonneg hnum (by norm_num [BASIS_POINTS])]
  rw [if_lt_one_eq_max]
  norm_num [SECONDS_PER_DAY, BASIS_POINTS]

/-- The premium formula exactly as the specification words it (claim C4):
`max(1, amount * ((base_rate * multiplier) / 100) * (period / 86400) /
(365 * 10000))` with floor (integer) division throughout. -/
def premiumSpecFormula (config : InsuranceConfig)
    (coverage_type : CoverageType) (amount : Int) (period : Nat) : Int :=
  let multiplier : Nat :=
    match coverage_type with
    | CoverageType.NFT => config.nft_multiplier
    | CoverageType.Token => config.token_multiplier
    | CoverageType.Combined => config.combined_multiplier
  max 1 (Int.fdiv
    (amount * Int.fdiv ((config.base_premium_rate : Int) * (multiplier : Int)) 100
      * ((period / 86400 : Nat) : Int))
    (365 * 10000))

/-- C4: for every coverage type, positive amount and period, the premium the
code computes (reused verbatim by purchase_policy, renew_policy and the
calculate_premium view, which all call calculate_premium_internal) equals
max(1, amount * ((base_rate * multiplier) / 100) * (period / 86400) /
(365 * 10000)) with floor division; and with base_rate 100,
calculate_premium(Token, 1000000000, 365*86400) = 10000000. -/
theorem premium_formula_spec :
    (∀ (c : InsuranceConfig) (ct : CoverageType) (amount : Int) (period : Nat),
      0 < amount →
      calculate_premium_internal c ct amount period =
        premiumSpecFormula c ct amount period) ∧
    (∀ (s : ContractState) (ct : CoverageType) (amount : Int) (period : Nat),
      calculate_premium s ct amount period =
        calculate_premium_internal s.config ct amount period) ∧
    calculate_premium (initContract 0 1 100) CoverageType.Token 1000000000 (365 * 86400) =
      10000000 := by
  refine ⟨?_, fun s ct amount period => rfl, by decide⟩
  intro c ct amount period hpos
  unfold calculate_premium_internal premiumSpecFormula
  cases ct <;>
  · dsimp only
    apply premium_formula_general
    exact hpos

theorem premium_formula_spec_witness :
    calculate_premium_internal (initContract 0 1 100).config CoverageType.NFT 5 864000 =
      premiumSpecFormula (initContract 0 1 100).config CoverageType.NFT 5 864000 :=
  premium_formula_spec.1 (initContract 0 1 100).config CoverageType.NFT 5 864000 (by decide)

theorem tdiv_le_tdiv_of_le {n1 n2 k : Int} (hk : 0 < k) (h1 : 0 ≤ n1)
    (h : n1 ≤ n2) : Int.tdiv n1 k ≤ Int.tdiv n2 k := by
  rw [Int.tdiv_eq_ediv h1 hk.le, Int.tdiv_eq_ediv (le_trans h1 h) hk.le]
  exact Int.ediv_le_ediv hk h

theorem tdiv_nonpos_of_nonpos {n k : Int} (hn : n ≤ 0) (hk : 0 ≤ k) :
    Int.tdiv n k ≤ 0 := by
  have h1 : 0 ≤ (-n).tdiv k := Int.tdiv_nonneg (by omega) hk
  have h2 := Int.neg_tdiv n k
  omega

/-- The clamped premium `if tdiv n k < 1 then 1 else tdiv n k` is monotone in
the numerator for a positive denominator. -/
theorem premium_if_mono {n1 n2 k : Int} (hk : 0 < k) (h : n1 ≤ n2) :
    (if Int.tdiv n1 k < 1 then 1 else Int.tdiv n1 k) ≤
    (if Int.tdiv n2 k < 1 then 1 else Int.tdiv n2 k) := by
  have key : Int.tdiv n1 k ≤ Int.tdiv n2 k ∨ Int.tdiv n1 k ≤ 0 := by
    rcases le_or_lt 0 n1 with h1 | h1
    · exact Or.inl (tdiv_le_tdiv_of_le hk h1 h)
    · exact Or.inr (tdiv_nonpos_of_nonpos h1.le hk.le)
  split_ifs <;> omega

theorem premium_mono_amount (c : InsuranceConfig) (ct : CoverageType) (p : Nat)
    {x y : Int} (hxy : x ≤ y) :
    calculate_premium_internal c ct x p ≤ calculate_premium_internal c ct y p := by
  unfold calculate_premium_internal
  cases ct <;>
  · dsimp only
    apply premium_if_mono (by norm_num [BASIS_POINTS])
    exact mul_le_mul_of_nonneg_right
      (mul_le_mul_of_nonneg_right hxy
        (Int.tdiv_nonneg
          (mul_nonneg (Int.natCast_nonneg _) (Int.natCast_nonneg _)) (by norm_num)))
      (Int.natCast_nonneg _)

theorem premium_mono_period (c : InsuranceConfig) (ct : CoverageType)
    {x : Int} (hx : 0 ≤ x) {p q : Nat} (hpq : p ≤ q) :
    calculate_premium_internal c ct x p ≤ calculate_premium_internal c ct x q := by
  unfold calculate_premium_internal
  cases ct <;>
  · dsimp only
    apply premium_if_mono (by norm_num [BASIS_POINTS])
    exact mul_le_mul_of_nonneg_left
      (by exact_mod_cast Nat.div_le_div_right hpq)
      (mul_nonneg hx
        (Int.tdiv_nonneg
          (mul_nonneg (Int.natCast_nonneg _) (Int.natCast_nonneg _)) (by norm_num)))

/-- The clamped premium body is monotone in the rate multiplier. -/
theorem premium_mono_mult {b m1 m2 : Nat} (hm : m1 ≤ m2) {x : Int} (hx : 0 ≤ x)
    (d : Nat) :
    (if Int.tdiv (x * Int.tdiv ((b : Int) * (m1 : Int)) 100 * (d : Int))
        (365 * (BASIS_POINTS : Int)) < 1
      then 1
      else Int.tdiv (x * Int.tdiv ((b : Int) * (m1 : Int)) 100 * (d : Int))
        (365 * (BASIS_POINTS : Int))) ≤
    (if Int.tdiv (x * Int.tdiv ((b : Int) * (m2 : Int)) 100 * (d : Int))
        (365 * (BASIS_POINTS : Int)) < 1
      then 1
      else Int.tdiv (x * Int.tdiv ((b : Int) * (m2 : Int)) 100 * (d : Int))
        (365 * (BASIS_POINTS : Int))) := by
  apply premium_if_mono (by norm_num [BASIS_POINTS])
  have har : Int.tdiv ((b : Int) * (m1 : Int)) 100 ≤ Int.tdiv ((b : Int) * (m2 : Int)) 100 :=
    tdiv_le_tdiv_of_le (by norm_num)
      (mul_nonneg (Int.natCast_nonneg _) (Int.natCast_nonneg _))
      (mul_le_mul_of_nonneg_left (by exact_mod_cast hm) (Int.natCast_nonneg _))
  exact mul_le_mul_of_nonneg_right (mul_le_mul_of_nonneg_left har hx) (Int.natCast_nonneg _)

/-- C9: under the initialized default configuration the premium is monotone
in the coverage amount, non-decreasing in the coverage period, and ordered
by coverage type: Token <= NFT <= Combined (multipliers 100 <= 150 <= 180). -/
theorem premium_monotonic :
    (∀ (a t r : Nat) (ct : CoverageType) (p : Nat) (x y : Int), x ≤ y →
      calculate_premium_internal (initContract a t r).config ct x p ≤
        calculate_premium_internal (initContract a t r).config ct y p) ∧
    (∀ (a t r : Nat) (ct : CoverageType) (x : Int), 0 ≤ x → ∀ p q : Nat, p ≤ q →
      calculate_premium_internal (initContract a t r).config ct x p ≤
        calculate_premium_internal (initContract a t r).config ct x q) ∧
    (∀ (a t r : Nat) (x : Int), 0 ≤ x → ∀ p : Nat,
      calculate_premium_internal (initContract a t r).config CoverageType.Token x p ≤
        calculate_premium_internal (initContract a t r).config CoverageType.NFT x p ∧
      calculate_premium_internal (initContract a t r).config CoverageType.NFT x p ≤
        calculate_premium_internal (initContract a t r).config CoverageType.Combined x p) := by
  refine ⟨fun a t r ct p x y hxy => premium_mono_amount _ ct p hxy,
    fun a t r ct x hx p q hpq => premium_mono_period _ ct hx hpq, ?_⟩
  intro a t r x hx p
  constructor
  · unfold calculate_premium_internal
    dsimp only [initContract]
    exact premium_mono_mult (by norm_num) hx _
  · unfold calculate_premium_internal
    dsimp only [initContract]
    exact premium_mono_mult (by norm_num) hx _

theorem premium_monotonic_witness :
    calculate_premium_internal (initContract 0 1 100).config CoverageType.Token 5 864000 ≤
      calculate_premium_internal (initContract 0 1 100).config CoverageType.NFT 5 864000 ∧
    calculate_premium_internal (initContract 0 1 100).config CoverageType.NFT 5 864000 ≤
      calculate_premium_internal (initContract 0 1 100).config CoverageType.Combined 5 864000 :=
  premium_monotonic.2.2 0 1 100 5 (by decide) 864000

/-- C5: cancel_policy succeeds only when the stored policy is Active
(cancelling a non-Active, in particular already-Cancelled, policy fails);
on success it stores status Cancelled (terminal) and debits the pool by
exactly premium_paid * remaining / total_span with truncating integer
division, where remaining = max(0, end_time - now) (Nat subtraction) and
total_span = end_time - start_time. -/
theorem cancel_policy_correct (s : ContractState) (o now : Nat)
    (policy : InsurancePolicy) (hp : lookupKV o s.policies = some policy)
    (hprem : 0 ≤ policy.premium_paid) :
    (policy.status ≠ PolicyStatus.Active → cancel_policy s o now = none) ∧
    (∀ s', cancel_policy s o now = some s' →
      policy.status = PolicyStatus.Active ∧
      lookupKV o s'.policies = some { policy with status := PolicyStatus.Cancelled } ∧
      s.premium_pool - s'.premium_pool =
        Int.tdiv (policy.premium_paid * ((policy.end_time - now : Nat) : Int))
          ((policy.end_time - policy.start_time : Nat) : Int)) := by
  have hrem : (if now < policy.end_time then policy.end_time - now else 0) =
      policy.end_time - now := by
    split <;> omega
  have hR0 : 0 ≤ Int.tdiv (policy.premium_paid * ((policy.end_time - now : Nat) : Int))
      ((policy.end_time - policy.start_time : Nat) : Int) :=
    Int.tdiv_nonneg (mul_nonneg hprem (Int.natCast_nonneg _)) (Int.natCast_nonneg _)
  have hR : (if 0 < policy.end_time - now then
      Int.tdiv (policy.premium_paid * ((policy.end_time - now : Nat) : Int))
        ((policy.end_time - policy.start_time : Nat) : Int)
      else 0) =
      Int.tdiv (policy.premium_paid * ((policy.end_time - now : Nat) : Int))
        ((policy.end_time - policy.start_time : Nat) : Int) := by
    split
    · rfl
    · rename_i h0
      have hz : policy.end_time - now = 0 := by omega
      rw [hz]
      simp
  unfold cancel_policy
  rw [hp]
  constructor
  · intro hns
    dsimp only
    split
    · rfl
    · rename_i hact
      exact absurd (not_not.mp hact) hns
  · intro s' h
    dsimp only at h
    split at h
    · exact Option.noConfusion h
    rename_i hact
    split at h
    · exact Option.noConfusion h
    rename_i hts
    rw [hrem] at h
    split at h
    · exact Option.noConfusion h
    rename_i hguard
    rw [hR] at h
    refine ⟨not_not.mp hact, ?_⟩
    split at h
    · rename_i hpos
      rw [Option.map_eq_some'] at h
      obtain ⟨s1, ht1, rfl⟩ := h
      obtain ⟨hp0, hpb, rfl⟩ := transferFromContract_eq_some ht1
      constructor
      · exact lookupKV_setKV_self o _ s.policies
      · simp only
        omega
    · rename_i hpos
      obtain rfl := Option.some_inj.mp h
      constructor
      · exact lookupKV_setKV_self o _ s.policies
      · simp only
        omega

/-- A state where principal 2 holds an Active 30-day policy bought at time
1000 with premium 30, for the cancel witness: cancelling 10 days in must
refund premium * 20/30 = 20. -/
def exCancelState : ContractState :=
  { exState0 with
      policies := setKV 2
        { owner := 2
          coverage_type := CoverageType.Token
          coverage_amount := 1000000
          premium_paid := 30
          start_time := 1000
          end_time := 1000 + 30 * 86400
          status := PolicyStatus.Active
          asset_address := 3 } exState0.policies
      premium_pool := 30
      contract_balance := 30 }

set_option maxRecDepth 4000 in
theorem cancel_policy_correct_witness :
    lookupKV 2 exCancelState.policies =
      some { owner := 2
             coverage_type := CoverageType.Token
             coverage_amount := 1000000
             premium_paid := 30
             start_time := 1000
             end_time := 1000 + 30 * 86400
             status := PolicyStatus.Active
             asset_address := 3 } ∧
    (cancel_policy exCancelState 2 (1000 + 10 * 86400)).isSome = true ∧
    exCancelState.premium_pool -
      ((cancel_policy exCancelState 2 (1000 + 10 * 86400)).getD exCancelState).premium_pool = 20 := by
  refine ⟨rfl, by decide, ?_⟩
  have h := (cancel_policy_correct exCancelState 2 (1000 + 10 * 86400) _ rfl
    (by norm_num)).2
    ((cancel_policy exCancelState 2 (1000 + 10 * 86400)).getD exCancelState) (by decide)
  rw [h.2.2]
  decide

/-- The operations that can create or rewrite `user`'s fraud-metrics record:
a claim submission by `user` or an admin flag of `user` (unflag of an absent
record writes nothing). -/
def opCreatesFraudRecord (user : Nat) : Op → Prop
  | Op.submit c _ _ _ _ => c = user
  | Op.flag _ u _ => u = user
  | _ => False

theorem fraud_record_absent_step {s s' : ContractState} {op : Op} {now user : Nat}
    (h : applyOp s op now = some s') (hnt : ¬ opCreatesFraudRecord user op)
    (habs : lookupKV user s.fraud_flags = none) :
    lookupKV user s'.fraud_flags = none := by
  cases op with
  | purchase o ct a p ar =>
    obtain ⟨prem, _, _, _, _, hff, _⟩ := purchase_policy_effects h
    rw [hff]; exact habs
  | renew o p =>
    obtain ⟨prem, _, _, _, _, hff, _⟩ := renew_policy_effects h
    rw [hff]; exact habs
  | cancel o =>
    obtain ⟨refund, _, _, _, _, _, hff, _⟩ := cancel_policy_effects h
    rw [hff]; exact habs
  | submit c aty ar a d =>
    rw [applyOp, Option.map_eq_some'] at h
    obtain ⟨⟨cid, s2⟩, hsub, rfl⟩ := h
    obtain ⟨_, _, _, _, _, hff⟩ := submit_claim_effects hsub
    rw [hff user (fun he => hnt he.symm)]
    exact habs
  | review c cid ap n pa =>
    obtain ⟨_, _, _, hff, _⟩ := review_claim_effects h
    rw [hff]; exact habs
  | payout c cid =>
    obtain ⟨pa, _, _, _, _, _, _, hff, _⟩ := process_payout_effects h
    rw [hff]; exact habs
  | addPool c a =>
    obtain ⟨_, _, _, _, hff, _⟩ := add_to_pool_effects h
    rw [hff]; exact habs
  | withdrawPool c a =>
    obtain ⟨_, _, _, _, _, _, hff, _⟩ := withdraw_from_pool_effects h
    rw [hff]; exact habs
  | emergency c =>
    rw [applyOp, Option.map_eq_some'] at h
    obtain ⟨⟨r, s2⟩, hem, rfl⟩ := h
    show lookupKV user s2.fraud_flags = none
    rcases emergency_withdraw_effects hem with rfl | ⟨_, _, _, _, _, hff, _⟩
    · exact habs
    · rw [hff]; exact habs
  | flag c u r =>
    obtain ⟨_, _, _, _, hff⟩ := flag_user_effects h
    rw [hff user (fun he => hnt he.symm)]
    exact habs
  | unflag c u =>
    by_cases hu : u = user
    · subst hu
      rw [applyOp] at h
      unfold unflag_user at h
      split at h
      · exact Option.noConfusion h
      rw [habs] at h
      obtain rfl := Option.some_inj.mp h
      exact habs
    · obtain ⟨_, _, _, _, hff⟩ := unflag_user_effects h
      rw [hff user (fun he => hu he.symm)]
      exact habs
  | updateRates c b n t cm =>
    obtain rfl := config_ops_effects.1 c b n t cm h
    exact habs
  | updateLimits c mn mx ma =>
    obtain rfl := config_ops_effects.2.1 c mn mx ma h
    exact habs
  | updateFraud c mc cd =>
    obtain rfl := config_ops_effects.2.2.1 c mc cd h
    exact habs
  | pauseSwitch c b =>
    obtain rfl := config_ops_effects.2.2.2 c b h
    exact habs

theorem fraud_record_absent_trace {s s' : ContractState} {tr : List (Op × Nat)}
    {user : Nat} (h : TraceReach s tr s')
    (habs : lookupKV user s.fraud_flags = none)
    (hnt : ∀ p ∈ tr, ¬ opCreatesFraudRecord user p.1) :
    lookupKV user s'.fraud_flags = none := by
  induction h with
  | nil t => exact habs
  | cons hstep htr ih =>
    refine ih (fraud_record_absent_step hstep ?_ habs) ?_
    · exact hnt _ (List.mem_cons_self _ _)
    · exact fun p hp => hnt p (List.mem_cons_of_mem _ hp)

/-- C3 counterexample: in a freshly initialized instance a principal with no
history gets an absent result (`none`) from get_fraud_metrics, not a zeroed
FraudMetrics record as the claim states. -/
theorem get_fraud_metrics_counterexample :
    get_fraud_metrics (initContract 0 1 100) 2 = none ∧
    get_fraud_metrics (initContract 0 1 100) 2 ≠ some defaultFraudMetrics :=
  ⟨rfl, by decide⟩

/-- C3 (amended): get_fraud_metrics, for every principal that has never
submitted a claim and has never been flagged, returns `none` — an absent
record rather than an error or a zeroed record; the zeroed default is only
substituted internally (check_fraud, flag_user). -/
theorem get_fraud_metrics_no_history (a t r : Nat) (tr : List (Op × Nat))
    (s : ContractState) (user : Nat)
    (h : TraceReach (initContract a t r) tr s)
    (hnt : ∀ p ∈ tr, ¬ opCreatesFraudRecord user p.1) :
    get_fraud_metrics s user = none :=
  fraud_record_absent_trace h rfl hnt

theorem get_fraud_metrics_no_history_witness :
    get_fraud_metrics exState1 7 = none :=
  get_fraud_metrics_no_history 0 1 100
    [(Op.purchase 2 CoverageType.Token 1000000 (90 * 86400) 3, 0)] exState1 7
    (TraceReach.cons rfl (TraceReach.nil _))
    (fun p hp => by
      rw [List.mem_singleton] at hp
      subst hp
      exact fun hf => hf)

/-- C6 counterexample: with the default 7-day cooldown, a first claim
submitted at ledger time 0 stores last_claim_time = 0, which check_fraud
treats as "no previous claim"; a second claim submitted 1 second later —
strictly less than the cooldown after the previous claim — is accepted (with
id 2) instead of failing. -/
theorem claim_cooldown_counterexample :
    exState2.config.claim_cooldown = 604800 ∧
    (submit_claim exState1 2 AssetType.Token 3 100 "" 0).map Prod.fst = some 1 ∧
    (submit_claim exState2 2 AssetType.Token 3 100 "" 1).map Prod.fst = some 2 :=
  ⟨rfl, by decide, by decide⟩

theorem applyOp_counter_mono {s s' : ContractState} {op : Op} {now : Nat}
    (h : applyOp s op now = some s') : s.claim_counter ≤ s'.claim_counter := by
  cases op with
  | purchase o ct a p ar =>
    obtain ⟨_, _, _, _, _, _, hc⟩ := purchase_policy_effects h; omega
  | renew o p =>
    obtain ⟨_, _, _, _, _, _, hc⟩ := renew_policy_effects h; omega
  | cancel o =>
    obtain ⟨_, _, _, _, _, _, _, hc⟩ := cancel_policy_effects h; omega
  | submit c aty ar a d =>
    rw [applyOp, Option.map_eq_some'] at h
    obtain ⟨⟨cid, s2⟩, hsub, rfl⟩ := h
    obtain ⟨_, _, _, hc, _, _⟩ := submit_claim_effects hsub
    show s.claim_counter ≤ s2.claim_counter
    omega
  | review c cid ap n pa =>
    obtain ⟨_, _, hc, _, _⟩ := review_claim_effects h; omega
  | payout c cid =>
    obtain ⟨_, _, _, _, _, _, hc, _, _⟩ := process_payout_effects h; omega
  | addPool c a =>
    obtain ⟨_, _, _, _, _, hc⟩ := add_to_pool_effects h; omega
  | withdrawPool c a =>
    obtain ⟨_, _, _, _, _, _, _, hc⟩ := withdraw_from_pool_effects h; omega
  | emergency c =>
    rw [applyOp, Option.map_eq_some'] at h
    obtain ⟨⟨r, s2⟩, hem, rfl⟩ := h
    show s.claim_counter ≤ s2.claim_counter
    rcases emergency_withdraw_effects hem with rfl | ⟨_, _, _, _, _, _, hc⟩
    · exact le_refl _
    · omega
  | flag c u r =>
    obtain ⟨_, _, _, hc, _⟩ := flag_user_effects h; omega
  | unflag c u =>
    obtain ⟨_, _, _, hc, _⟩ := unflag_user_effects h; omega
  | updateRates c b n t cm =>
    obtain rfl := config_ops_effects.1 c b n t cm h; exact le_refl _
  | updateLimits c mn mx ma =>
    obtain rfl := config_ops_effects.2.1 c mn mx ma h; exact le_refl _
  | updateFraud c mc cd =>
    obtain rfl := config_ops_effects.2.2.1 c mc cd h; exact le_refl _
  | pauseSwitch c b =>
    obtain rfl := config_ops_effects.2.2.2 c b h; exact le_refl _

theorem traceReach_counter_mono {s s' : ContractState} {tr : List (Op × Nat)}
    (h : TraceReach s tr s') : s.claim_counter ≤ s'.claim_counter := by
  induction h with
  | nil t => exact le_refl _
  | cons hstep htr ih => exact le_trans (applyOp_counter_mono hstep) ih

/-- C6 (amended): with a *nonzero* previous-claim time recorded — the code
stores last_claim_time and uses 0 as its no-previous-claim sentinel, so a
previous claim at ledger time 0 escapes the gate — a second submit_claim
strictly less than claim_cooldown seconds after the previous claim always
fails; spaced at least claim_cooldown apart (with the policy and fraud
preconditions holding) it succeeds and returns claim id claim_counter + 1;
and any two successful submissions, in order, receive strictly increasing
claim ids. -/
theorem claim_cooldown_gating :
    (∀ (s : ContractState) (user : Nat) (aty : AssetType) (ar : Nat) (amt : Int)
        (d : String) (now : Nat) (m : FraudMetrics),
      lookupKV user s.fraud_flags = some m →
      0 < m.last_claim_time →
      now - m.last_claim_time < s.config.claim_cooldown →
      submit_claim s user aty ar amt d now = none) ∧
    (∀ (s : ContractState) (user : Nat) (aty : AssetType) (ar : Nat) (amt : Int)
        (d : String) (now : Nat) (policy : InsurancePolicy) (m : FraudMetrics),
      s.config.paused = false →
      lookupKV user s.policies = some policy →
      policy.status = PolicyStatus.Active →
      policy.start_time ≤ now → now ≤ policy.end_time →
      coverageCompatible policy.coverage_type aty = true →
      0 < amt → amt ≤ policy.coverage_amount →
      lookupKV user s.fraud_flags = some m →
      m.flagged = false →
      m.last_claim_time ≤ now →
      s.config.claim_cooldown ≤ now - m.last_claim_time →
      recentClaimCount s m now < s.config.max_claims_per_period →
      ∃ s', submit_claim s user aty ar amt d now = some (s.claim_counter + 1, s')) ∧
    (∀ (s0 s1 s2 s3 : ContractState) (tr : List (Op × Nat))
        (u1 u2 : Nat) (aty1 aty2 : AssetType) (ar1 ar2 : Nat) (a1 a2 : Int)
        (d1 d2 : String) (t1 t2 id1 id2 : Nat),
      submit_claim s0 u1 aty1 ar1 a1 d1 t1 = some (id1, s1) →
      TraceReach s1 tr s2 →
      submit_claim s2 u2 aty2 ar2 a2 d2 t2 = some (id2, s3) →
      id1 < id2) := by
  refine ⟨?_, ?_, ?_⟩
  · intro s user aty ar amt d now m hm hpos hcd
    have hcf : check_fraud s user now = false := by
      unfold check_fraud
      rw [hm]
      dsimp only [Option.getD]
      split
      · rfl
      split
      · rfl
      rw [if_pos ⟨hpos, hcd⟩]
    unfold submit_claim
    split
    · rfl
    split
    · rfl
    dsimp only
    repeat' split
    all_goals try rfl
    rename_i hcf2
    exact absurd (of_not_not hcf2) (by simp [hcf])
  · intro s user aty ar amt d now policy m hpause hpol hact hst hen hcompat
      hamt1 hamt2 hm hflag hlast hcd hcnt
    have hcf : check_fraud s user now = true := by
      unfold check_fraud
      rw [hm]
      dsimp only [Option.getD]
      rw [if_neg (by simp [hflag])]
      rw [if_neg (fun hc => absurd hc.2 (not_lt.mpr hlast))]
      rw [if_neg (fun hc => absurd hc.2 (not_lt.mpr hcd))]
      exact decide_eq_true hcnt
    unfold submit_claim
    rw [if_neg (by simp [hpause]), hpol]
    dsimp only
    rw [if_neg (fun hne => hne hact)]
    rw [if_neg (fun hor => by rcases hor with h | h <;> omega)]
    rw [if_neg (by simp [hcompat])]
    rw [if_neg (fun hor => by rcases hor with h | h <;> omega)]
    rw [if_neg (by simp [hcf])]
    exact ⟨_, rfl⟩
  · intro s0 s1 s2 s3 tr u1 u2 aty1 aty2 ar1 ar2 a1 a2 d1 d2 t1 t2 id1 id2 h1 htr h2
    obtain ⟨hid1, _, _, hc1, _, _⟩ := submit_claim_effects h1
    obtain ⟨hid2, _, _, hc2, _, _⟩ := submit_claim_effects h2
    have hmono := traceReach_counter_mono htr
    omega

/-- State after principal 2 buys a 90-day Token policy at ledger time 1000. -/
def exNzState1 : ContractState :=
  (purchase_policy exState0 2 CoverageType.Token 1000000 (90 * 86400) 3 1000).getD exState0

/-- State after principal 2 then submits claim 1 at day 10 (time 865000). -/
def exNzState2 : ContractState :=
  ((submit_claim exNzState1 2 AssetType.Token 3 100 "" (1000 + 10 * 86400)).map Prod.snd).getD exNzState1

/-- The fraud-metrics record stored for principal 2 in `exNzState2`. -/
def exNzMetrics : FraudMetrics :=
  { total_claims := 1
    recent_claims := [1]
    last_claim_time := 1000 + 10 * 86400
    flagged := false
    flag_reason := "" }

set_option maxRecDepth 4000 in
theorem claim_cooldown_gating_witness :
    lookupKV 2 exNzState2.fraud_flags = some exNzMetrics ∧
    exNzState2.config.claim_cooldown = 604800 ∧
    submit_claim exNzState2 2 AssetType.Token 3 100 "" (1000 + 15 * 86400) = none :=
  ⟨by decide, rfl,
    claim_cooldown_gating.1 exNzState2 2 AssetType.Token 3 100 "" (1000 + 15 * 86400)
      exNzMetrics (by decide) (by decide) (by decide)⟩
